import Mathlib

/-!
Verification of the Telegram polling bridge (`src/TelegramBot/main.py`).

The file shallowly embeds the `TelegramPoller` class: its mutable state
(`last_update_id`), the fetch step (`get_updates`), the per-event dispatch
(`process_update`), the generation client wrapper
(`send_to_databricks_endpoint`), and the top-level loop (`run`).

External I/O is modelled by explicit oracles: the Telegram transport is a
function from the request parameters that `get_updates` builds to a fetch
outcome, and each event handler receives the outcome of its generation call
and of its outbound send.  Exceptions are modelled explicitly: a Python
function that catches an exception internally is embedded as a total Lean
function, and a call that can raise past its own body returns a flag that
the caller's handler inspects, mirroring the try/except structure of the
source line by line.  Outbound calls (sendMessage, sendChatAction, the
serving-endpoint query) are recorded as an effect trace; log output is not
modelled.
-/

/-- Python `str.startswith`, embedded character-wise over the string data. -/
def startsWithText (s p : String) : Bool := p.data.isPrefixOf s.data

/-- A Telegram message, as read by `process_update`: `message["chat"]["id"]`,
`message["text"]` (absent for non-text payloads), and
`message.get("from", {}).get("first_name", ...)`. -/
structure Message where
  chat_id : Int
  text : Option String
  from_first_name : Option String
deriving DecidableEq, Repr

/-- A Telegram update: `update["update_id"]` plus the optional
`update["message"]` payload. -/
structure Update where
  update_id : Nat
  message : Option Message
deriving DecidableEq, Repr

/-- The poller's mutable state: `self.last_update_id`, initialised to 0 in
`TelegramPoller.__init__`. -/
structure PollerState where
  last_update_id : Nat
deriving DecidableEq, Repr

/-- `POLL_INTERVAL = int(os.getenv("POLL_INTERVAL", "2"))`: the sleep after a
normal loop iteration, default 2 seconds. -/
def POLL_INTERVAL : Nat := 2

/-- The `await asyncio.sleep(5)` cooldown in the loop's `except Exception`
branch. -/
def COOLDOWN_SECONDS : Nat := 5

/-- The value of the `DATABRICKS_SERVING_ENDPOINT` environment variable, read
once at startup; no claim depends on its contents. -/
def databricksServingEndpoint : String := "my-serving-endpoint"

/-- The fixed `/start` reply sent by `process_update`. -/
def welcomeReply : String :=
  "👋 Hello! I\x27m connected to a Databricks AI model. Send me a message and I\x27ll respond!"

/-- The fixed `/help` reply sent by `process_update`. -/
def helpReply : String :=
  "💬 Just send me any message and I\x27ll process it through the Databricks AI model.\n\nCommands:\n/start - Welcome message\n/help - This help message\n/status - Check bot status"

/-- The constant front part of the `/status` reply (everything before the
interpolated `self.last_update_id`). -/
def statusReplyFront : String :=
  "✅ Bot is running\n🔗 Endpoint: " ++ databricksServingEndpoint
    ++ "\n🔄 Mode: Polling\n📊 Last update ID: "

/-- The `/status` reply: the f-string interpolating the current cursor. -/
def statusReply (cursor : Nat) : String := statusReplyFront ++ Nat.repr cursor

/-- The generic per-event apology sent from `process_update`'s `except`
handler. -/
def processingErrorReply : String :=
  "Sorry, I encountered an error processing your message. Please try again."

/-- The reply returned by `send_to_databricks_endpoint` when the response has
no choices. -/
def noResponseReply : String :=
  "I couldn\x27t generate a response. Please try again."

/-- The front of the reply built in `send_to_databricks_endpoint`'s `except`
branch: `f"Sorry, I encountered an error: {str(e)}"`. -/
def errorReplyFront : String := "Sorry, I encountered an error: "

/-- `str(e)` for the `TypeError` raised by `result[:100]` when the first
choice's `message.content` is `None`; it is caught by the same `except`. -/
def noneContentError : String := "\x27NoneType\x27 object is not subscriptable"

/-- Outcome of one `w.serving_endpoints.query(...)` call: either the call
raises, or it returns a response whose `choices[i].message.content` fields are
listed (with `none` for a `None` content). An absent/`None` `choices` field is
modelled as the empty list, which the code's truthiness test treats the same
way. -/
inductive QueryResult where
  | err (msg : String)
  | ok (contents : List (Option String))
deriving DecidableEq, Repr

/-- Outcome of one `self.client.post(... sendMessage ...)` round trip:
delivered, an `httpx.HTTPError` (caught inside `send_telegram_message`), or an
exception that `send_telegram_message` does not catch (e.g. a JSON decode
error from `response.json()`), which propagates to the caller. -/
inductive SendOutcome where
  | delivered
  | httpError
  | raised
deriving DecidableEq, Repr

/-- One recorded outbound interaction of the poller. -/
inductive Effect where
  | sendMessage (chat_id : Int) (text : String)
  | chatAction (chat_id : Int) (action : String)
  | databricksQuery (text : String)
deriving DecidableEq, Repr

/-- Per-event oracle: the generation call's outcome and the outcome of the
event's outbound `sendMessage` call. -/
structure EventOracle where
  q : QueryResult
  replyOut : SendOutcome
deriving Repr

/-- `TelegramPoller.send_to_databricks_endpoint`: performs the query (recorded
as an effect) and always returns a string — the whole body is wrapped in
`try/except Exception`, so no exception escapes.  With at least one choice
whose content is present it returns that content; with no choices it returns
`noResponseReply`; with a `None` first content the `result[:100]` logging
slice raises a `TypeError` that the same `except` turns into an error reply;
a raising query likewise becomes an error reply. -/
def send_to_databricks_endpoint (message : String) (q : QueryResult) :
    List Effect × String :=
  ([Effect.databricksQuery message],
    match q with
    | QueryResult.err m => errorReplyFront ++ m
    | QueryResult.ok [] => noResponseReply
    | QueryResult.ok (none :: _) => errorReplyFront ++ noneContentError
    | QueryResult.ok (some c :: _) => c)

/-- `TelegramPoller.send_telegram_message`: records the attempted POST and
reports whether the call raised past its body (`httpx.HTTPError` is caught
inside and turned into an error dict; other exceptions propagate). -/
def send_telegram_message (chat_id : Int) (text : String) (o : SendOutcome) :
    List Effect × Bool :=
  ([Effect.sendMessage chat_id text],
    match o with
    | SendOutcome.raised => true
    | _ => false)

/-- `TelegramPoller.send_chat_action`: records the attempt; its body catches
`Exception`, so it never raises. -/
def send_chat_action (chat_id : Int) (action : String) : List Effect :=
  [Effect.chatAction chat_id action]

/-- The body of `process_update`'s outer `try` block: skip updates without a
message or without text, dispatch `/start`, `/help`, `/status` by string
prefix in that order, otherwise send the typing indicator, query the serving
endpoint and send its reply.  Returns the effect trace together with a flag
telling whether the body raised (only the `sendMessage` call can). -/
def process_update_body (cursor : Nat) (u : Update) (o : EventOracle) :
    List Effect × Bool :=
  match u.message with
  | none => ([], false)
  | some m =>
    match m.text with
    | none => ([], false)
    | some text =>
      if startsWithText text "/start" then
        send_telegram_message m.chat_id welcomeReply o.replyOut
      else if startsWithText text "/help" then
        send_telegram_message m.chat_id helpReply o.replyOut
      else if startsWithText text "/status" then
        send_telegram_message m.chat_id (statusReply cursor) o.replyOut
      else
        let gen := send_to_databricks_endpoint text o.q
        let sent := send_telegram_message m.chat_id gen.2 o.replyOut
        (send_chat_action m.chat_id "typing" ++ gen.1 ++ sent.1, sent.2)

/-- `TelegramPoller.process_update`: the body wrapped in the per-event
`except Exception` handler, which attempts one generic apology to
`message["chat"]["id"]` inside a bare `try/except: pass`.  If the body raised
before `message` was bound, the handler's name lookup fails and the bare
`except` swallows it, sending nothing.  The function is total: no exception
escapes into the batch loop. -/
def process_update (cursor : Nat) (u : Update) (o : EventOracle) :
    List Effect :=
  let b := process_update_body cursor u o
  if b.2 then
    match u.message with
    | some m => b.1 ++ [Effect.sendMessage m.chat_id processingErrorReply]
    | none => b.1
  else
    b.1

/-- The `for update in updates:` loop of `run`: events are handled strictly
one after the other, in list order, each against its own oracle. -/
def process_batch (cursor : Nat) : List (Update × EventOracle) → List Effect
  | [] => []
  | p :: ps => process_update cursor p.1 p.2 ++ process_batch cursor ps

/-- Pair each update of a batch with its oracle from a position-indexed
stream. -/
def withOracles : List Update → (Nat → EventOracle) → List (Update × EventOracle)
  | [], _ => []
  | u :: us, os => (u, os 0) :: withOracles us (fun i => os (i + 1))

/-- The query parameters `get_updates` sends to `getUpdates`:
`offset = self.last_update_id + 1`, `timeout = 30`. -/
structure FetchRequest where
  offset : Nat
  timeout : Nat
deriving DecidableEq, Repr

/-- Outcome of the `getUpdates` round trip: the GET (or `raise_for_status`,
or `response.json()`) raises; or the payload has a falsy `"ok"`; or it carries
a result list. -/
inductive FetchResult where
  | err (msg : String)
  | notOk (desc : String)
  | ok (updates : List Update)
deriving DecidableEq, Repr

/-- The request `get_updates` builds from the current state. -/
def getUpdatesRequest (s : PollerState) : FetchRequest :=
  { offset := s.last_update_id + 1, timeout := 30 }

/-- `max(update["update_id"] for update in updates)`.  Over `Nat` the fold
from 0 agrees with Python's `max` on every non-empty list, the only way the
code uses it. -/
def batchMax (us : List Update) : Nat :=
  us.foldl (fun m u => max m u.update_id) 0

/-- `TelegramPoller.get_updates`: builds the request, and on a successful
`ok` payload with a non-empty result sets `last_update_id` to the batch
maximum before returning the batch.  Every exception of the body is caught by
its `except Exception`, which returns the empty list with the state
untouched; a falsy `"ok"` payload likewise yields the empty list. -/
def get_updates (s : PollerState) (respond : FetchRequest → FetchResult) :
    PollerState × List Update :=
  match respond (getUpdatesRequest s) with
  | FetchResult.err _ => (s, [])
  | FetchResult.notOk _ => (s, [])
  | FetchResult.ok updates =>
      if updates.isEmpty then (s, updates)
      else ({ last_update_id := batchMax updates }, updates)

/-- One pass through `run`'s `try` body up to the sleep: fetch, then process
the returned batch with the already-updated cursor. -/
def run_iteration (s : PollerState) (respond : FetchRequest → FetchResult)
    (os : Nat → EventOracle) : PollerState × List Effect :=
  let fetched := get_updates s respond
  (fetched.1, process_batch fetched.1.last_update_id (withOracles fetched.2 os))

/-- Exception classes relevant to `run`'s handlers: `KeyboardInterrupt`
(caught, breaks the loop) and a cancellation-style interrupt
(`asyncio.CancelledError`, a `BaseException` that is neither
`KeyboardInterrupt` nor `Exception`, so no handler catches it). -/
inductive ExcClass where
  | kbInterrupt
  | cancelled
deriving DecidableEq, Repr

/-- The environment's behaviour during one loop iteration: either the
iteration runs undisturbed against the given transport and per-event oracles,
or an interrupt of the given class is delivered at an await point inside the
loop's `try` block. -/
inductive IterInput where
  | quiet (respond : FetchRequest → FetchResult) (os : Nat → EventOracle)
  | interrupt (c : ExcClass)

/-- How one loop iteration ended: a sleep of the given length followed by the
next iteration (the normal path, or the `except Exception` cooldown path),
the `break` of the `except KeyboardInterrupt` handler, or an exception
propagating out of `run`. -/
inductive StepKind where
  | normal (sleepSeconds : Nat)
  | cooldown (sleepSeconds : Nat)
  | stopBreak
  | raisedOut
deriving DecidableEq, Repr

/-- One iteration of `run`'s `while True:`.  A quiet iteration never reaches
the `except Exception` branch, because `get_updates` and `process_update`
both catch their own exceptions: it always ends in the normal
`asyncio.sleep(POLL_INTERVAL)`.  A `KeyboardInterrupt` inside the `try` is
caught and breaks; a cancellation is caught by neither handler and escapes. -/
def run_step (s : PollerState) :
    IterInput → PollerState × List Effect × StepKind
  | IterInput.quiet respond os =>
      let r := run_iteration s respond os
      (r.1, r.2, StepKind.normal POLL_INTERVAL)
  | IterInput.interrupt ExcClass.kbInterrupt => (s, [], StepKind.stopBreak)
  | IterInput.interrupt ExcClass.cancelled => (s, [], StepKind.raisedOut)

/-- How the whole loop ended: the supplied schedule ran out (the loop is
still running), the `break` path reached `await self.client.aclose()` after
the loop, or an exception escaped `run` (there is no `finally`, so the
`aclose` line is skipped). -/
inductive RunExit where
  | scriptOver
  | cleanStop
  | raised
deriving DecidableEq, Repr

/-- The observable outcome of running `run` against a schedule. -/
structure RunResult where
  state : PollerState
  effects : List Effect
  exit : RunExit
  clientReleased : Bool
deriving Repr

/-- `TelegramPoller.run` over a finite schedule of iteration inputs.
`clientReleased` records whether `await self.client.aclose()` ran; that line
sits after the loop with no `finally`, so it runs exactly on the `break`
path. -/
def run_loop (s : PollerState) : List IterInput → RunResult
  | [] => ⟨s, [], RunExit.scriptOver, false⟩
  | it :: its =>
    match run_step s it with
    | (s', effs, StepKind.normal _) =>
        let r := run_loop s' its
        ⟨r.state, effs ++ r.effects, r.exit, r.clientReleased⟩
    | (s', effs, StepKind.cooldown _) =>
        let r := run_loop s' its
        ⟨r.state, effs ++ r.effects, r.exit, r.clientReleased⟩
    | (s', effs, StepKind.stopBreak) => ⟨s', effs, RunExit.cleanStop, true⟩
    | (s', effs, StepKind.raisedOut) => ⟨s', effs, RunExit.raised, false⟩

/-- Number of `sendMessage` effects with exactly this chat and text. -/
def countSends (effs : List Effect) (cid : Int) (t : String) : Nat :=
  (effs.filter (fun e => decide (e = Effect.sendMessage cid t))).length

/-- Whether an effect is an invocation of the serving-endpoint client. -/
def isQueryEffect : Effect → Bool
  | Effect.databricksQuery _ => true
  | _ => false

/-- Number of serving-endpoint invocations in a trace. -/
def queryCount (effs : List Effect) : Nat :=
  (effs.filter isQueryEffect).length

/-- The canned reply `process_update`'s command chain selects for a text, if
any: the same three `startswith` tests, in the same order. -/
def cannedReplyFor (cursor : Nat) (text : String) : Option String :=
  if startsWithText text "/start" then some welcomeReply
  else if startsWithText text "/help" then some helpReply
  else if startsWithText text "/status" then some (statusReply cursor)
  else none

/-- Whether a query outcome is one of the failure shapes (raise, no choices,
absent first content). -/
def queryIsFailure : QueryResult → Bool
  | QueryResult.err _ => true
  | QueryResult.ok [] => true
  | QueryResult.ok (none :: _) => true
  | QueryResult.ok (some _ :: _) => false

/-- `update_id`s strictly increase along the list. -/
def strictlyIncreasingIds : List Update → Bool
  | [] => true
  | [_] => true
  | a :: b :: rest =>
      decide (a.update_id < b.update_id) && strictlyIncreasingIds (b :: rest)

/-- A transport that honours the request parameters it is sent: every update
it returns has an id at least the requested `offset` (the documented contract
of Telegram's `getUpdates`). -/
def honest (respond : FetchRequest → FetchResult) : Prop :=
  ∀ req us, respond req = FetchResult.ok us →
    ∀ u ∈ us, req.offset ≤ u.update_id

/-- Every quiet iteration of a schedule uses an honest transport. -/
def honestScript : List IterInput → Prop
  | [] => True
  | IterInput.quiet respond _ :: its => honest respond ∧ honestScript its
  | IterInput.interrupt _ :: its => honestScript its

/-- Concrete scenario data used by the closed-theorem instances below. -/
def mStartMsg : Message := ⟨10, some "/start", some "Ann"⟩

def uStartUpd : Update := ⟨5, some mStartMsg⟩

def mStarting : Message := ⟨10, some "/starting", none⟩

def uStarting : Update := ⟨7, some mStarting⟩

def mStatusExtra : Message := ⟨11, some "/status_extra", none⟩

def uStatusExtra : Update := ⟨8, some mStatusExtra⟩

def mHello : Message := ⟨12, some "hi", some "Bob"⟩

def uHello : Update := ⟨6, some mHello⟩

def oDeliv : EventOracle := ⟨QueryResult.ok [some "hi there"], SendOutcome.delivered⟩

def oRaise : EventOracle := ⟨QueryResult.ok [some "hi there"], SendOutcome.raised⟩

def noOracle : Nat → EventOracle := fun _ => oDeliv

def errRespond : FetchRequest → FetchResult := fun _ => FetchResult.err "network failure"

def timeoutRespond : FetchRequest → FetchResult := fun _ => FetchResult.err "timeout"

def respond101 : FetchRequest → FetchResult := fun _ => FetchResult.ok [⟨101, none⟩]

def badRespond : FetchRequest → FetchResult := fun _ => FetchResult.ok [⟨50, none⟩]

lemma string_data_append (s t : String) : (s ++ t).data = s.data ++ t.data := by
  cases s; cases t; rfl

lemma head_of_append {c : Char} {pre : List Char} (suf : List Char)
    (h : pre.head? = some c) : (pre ++ suf).head? = some c := by
  cases pre with
  | nil => simp at h
  | cons a l => simpa using h

lemma statusReply_head (n : Nat) : (statusReply n).data.head? = some '✅' := by
  have h : statusReplyFront.data.head? = some '✅' := by decide
  rw [statusReply, string_data_append]
  exact head_of_append _ h

lemma statusReply_ne_processingError (n : Nat) :
    statusReply n ≠ processingErrorReply := by
  intro h
  have h2 : (statusReply n).data.head? = processingErrorReply.data.head? := by
    rw [h]
  rw [statusReply_head] at h2
  have h3 : processingErrorReply.data.head? = some 'S' := by decide
  rw [h3] at h2
  exact absurd h2 (by decide)

lemma cannedReplyFor_ne (cursor : Nat) (text : String) (r : String)
    (hr : cannedReplyFor cursor text = some r) : r ≠ processingErrorReply := by
  unfold cannedReplyFor at hr
  by_cases h1 : startsWithText text "/start"
  · simp [h1] at hr
    rw [← hr]; decide
  · by_cases h2 : startsWithText text "/help"
    · simp [h1, h2] at hr
      rw [← hr]; decide
    · by_cases h3 : startsWithText text "/status"
      · simp [h1, h2, h3] at hr
        rw [← hr]
        exact statusReply_ne_processingError cursor
      · simp [h1, h2, h3] at hr

lemma foldl_max_le_init (a : Nat) (us : List Update) :
    a ≤ us.foldl (fun m u => max m u.update_id) a := by
  induction us generalizing a with
  | nil => exact le_refl a
  | cons u us ih => exact le_trans (le_max_left a u.update_id) (ih _)

lemma le_batchMax (us : List Update) (u : Update) (hu : u ∈ us) :
    u.update_id ≤ batchMax us := by
  unfold batchMax
  generalize (0 : Nat) = a
  induction us generalizing a with
  | nil => cases hu
  | cons v vs ih =>
    rcases List.mem_cons.mp hu with h | h
    · subst h
      exact le_trans (le_max_right a u.update_id) (foldl_max_le_init _ vs)
    · exact ih h _

lemma process_update_of_body (cursor : Nat) (u : Update) (m : Message)
    (o : EventOracle) (effs : List Effect) (raised : Bool)
    (hm : u.message = some m)
    (hb : process_update_body cursor u o = (effs, raised)) :
    process_update cursor u o
      = effs ++ (if raised
                 then [Effect.sendMessage m.chat_id processingErrorReply]
                 else []) := by
  unfold process_update
  rw [hb]
  cases raised with
  | false => simp
  | true => rw [hm]; simp

lemma process_update_body_canned (cursor : Nat) (u : Update) (m : Message)
    (text : String) (o : EventOracle) (r : String)
    (hm : u.message = some m) (ht : m.text = some text)
    (hr : cannedReplyFor cursor text = some r) :
    process_update_body cursor u o
      = send_telegram_message m.chat_id r o.replyOut := by
  unfold cannedReplyFor at hr
  simp only [process_update_body, hm, ht]
  by_cases h1 : startsWithText text "/start"
  · simp [h1] at hr ⊢
    rw [hr]
  · by_cases h2 : startsWithText text "/help"
    · simp [h1, h2] at hr ⊢
      rw [hr]
    · by_cases h3 : startsWithText text "/status"
      · simp [h1, h2, h3] at hr ⊢
        rw [hr]
      · simp [h1, h2, h3] at hr

lemma process_update_canned (cursor : Nat) (u : Update) (m : Message)
    (text : String) (o : EventOracle) (r : String)
    (hm : u.message = some m) (ht : m.text = some text)
    (hr : cannedReplyFor cursor text = some r) :
    process_update cursor u o
      = Effect.sendMessage m.chat_id r
          :: (if o.replyOut = SendOutcome.raised
              then [Effect.sendMessage m.chat_id processingErrorReply]
              else []) := by
  have hb := process_update_body_canned cursor u m text o r hm ht hr
  cases ho : o.replyOut with
  | delivered =>
      rw [ho] at hb
      have h2 := process_update_of_body cursor u m o
        [Effect.sendMessage m.chat_id r] false hm (by rw [hb]; rfl)
      rw [h2]
      simp
  | httpError =>
      rw [ho] at hb
      have h2 := process_update_of_body cursor u m o
        [Effect.sendMessage m.chat_id r] false hm (by rw [hb]; rfl)
      rw [h2]
      simp
  | raised =>
      rw [ho] at hb
      have h2 := process_update_of_body cursor u m o
        [Effect.sendMessage m.chat_id r] true hm (by rw [hb]; rfl)
      rw [h2]
      simp

lemma process_batch_append (cursor : Nat) (xs ys : List (Update × EventOracle)) :
    process_batch cursor (xs ++ ys)
      = process_batch cursor xs ++ process_batch cursor ys := by
  induction xs with
  | nil => simp [process_batch]
  | cons x xs ih =>
    rw [List.cons_append]
    simp only [process_batch]
    rw [ih, List.append_assoc]

lemma canned_counts (cursor : Nat) (u : Update) (m : Message) (text : String)
    (o : EventOracle) (r : String)
    (hm : u.message = some m) (ht : m.text = some text)
    (hr : cannedReplyFor cursor text = some r) :
    countSends (process_update cursor u o) m.chat_id r = 1
    ∧ queryCount (process_update cursor u o) = 0 := by
  have hshape := process_update_canned cursor u m text o r hm ht hr
  have hne := cannedReplyFor_ne cursor text r hr
  rw [hshape]
  by_cases ho : o.replyOut = SendOutcome.raised
  · simp [ho, countSends, queryCount, isQueryEffect, List.filter, Ne.symm hne]
  · simp [ho, countSends, queryCount, isQueryEffect, List.filter]

/-- Claim C1: when a fetch returns a non-empty batch, `get_updates` sets the
cursor to the maximum `update_id` of the batch before any event is handled
(`run_iteration` processes the batch with the already-updated cursor); when
the batch is empty the cursor is unchanged and nothing is processed. -/
theorem c1_cursor_advances_before_processing
    (s : PollerState) (respond : FetchRequest → FetchResult)
    (os : Nat → EventOracle) (us : List Update)
    (h : respond (getUpdatesRequest s) = FetchResult.ok us) :
    (us ≠ [] →
        (get_updates s respond).1.last_update_id = batchMax us
        ∧ (run_iteration s respond os).2
            = process_batch (batchMax us) (withOracles us os))
    ∧ (us = [] →
        (get_updates s respond).1 = s ∧ (run_iteration s respond os).2 = []) := by
  constructor
  · intro hne
    have hg2 : get_updates s respond = ({ last_update_id := batchMax us }, us) := by
      unfold get_updates
      rw [h]
      cases us with
      | nil => exact absurd rfl hne
      | cons a l => rfl
    refine ⟨by rw [hg2], ?_⟩
    unfold run_iteration
    rw [hg2]
  · intro he
    subst he
    have hg2 : get_updates s respond = (s, []) := by
      unfold get_updates
      rw [h]
      rfl
    refine ⟨by rw [hg2], ?_⟩
    unfold run_iteration
    rw [hg2]
    rfl

/-- Witness for C1 at a concrete one-element batch with id 101. -/
theorem c1_witness :
    (get_updates ⟨3⟩ respond101).1.last_update_id = batchMax [⟨101, none⟩]
    ∧ (run_iteration ⟨3⟩ respond101 noOracle).2
        = process_batch (batchMax [⟨101, none⟩]) (withOracles [⟨101, none⟩] noOracle) :=
  (c1_cursor_advances_before_processing ⟨3⟩ respond101 noOracle [⟨101, none⟩] rfl).1
    (by decide)

/-- Claim C2: every fetch is issued with `offset = Cursor + 1`, and after a
fetch returned a non-empty batch the next fetch request carries
`offset = max batch id + 1`. -/
theorem c2_fetch_offset (s : PollerState) (respond : FetchRequest → FetchResult)
    (us : List Update)
    (h : respond (getUpdatesRequest s) = FetchResult.ok us) (hne : us ≠ []) :
    (getUpdatesRequest s).offset = s.last_update_id + 1
    ∧ (getUpdatesRequest (get_updates s respond).1).offset = batchMax us + 1 := by
  refine ⟨rfl, ?_⟩
  have hg2 : get_updates s respond = ({ last_update_id := batchMax us }, us) := by
    unfold get_updates
    rw [h]
    cases us with
    | nil => exact absurd rfl hne
    | cons a l => rfl
  rw [hg2]
  rfl

/-- Witness for C2: after a fetch returning the batch `[id 101]` the next
request carries offset 102. -/
theorem c2_witness :
    (getUpdatesRequest ⟨0⟩).offset = (⟨0⟩ : PollerState).last_update_id + 1
    ∧ (getUpdatesRequest (get_updates ⟨0⟩ respond101).1).offset
        = batchMax [⟨101, none⟩] + 1 :=
  c2_fetch_offset ⟨0⟩ respond101 [⟨101, none⟩] rfl (by decide)

/-- Claim C3: for any inbound text selected by the command chain (`/start`,
`/help`, `/status` by string prefix), `process_update` sends exactly one
canned reply to the event's chat and never records a serving-endpoint
invocation, for every generation-service state and send outcome. -/
theorem c3_commands_bypass_generation (cursor : Nat) (u : Update) (m : Message)
    (text : String) (o : EventOracle) (r : String)
    (hm : u.message = some m) (ht : m.text = some text)
    (hr : cannedReplyFor cursor text = some r) :
    countSends (process_update cursor u o) m.chat_id r = 1
    ∧ queryCount (process_update cursor u o) = 0 :=
  canned_counts cursor u m text o r hm ht hr

/-- Witness for C3 at the concrete event `/start`. -/
theorem c3_witness :
    countSends (process_update 0 uStartUpd oDeliv) mStartMsg.chat_id welcomeReply = 1
    ∧ queryCount (process_update 0 uStartUpd oDeliv) = 0 :=
  c3_commands_bypass_generation 0 uStartUpd mStartMsg "/start" oDeliv welcomeReply
    rfl rfl (by decide)

/-- Claim C4: the generation-client wrapper is total (its body catches every
exception): with at least one candidate whose content is present it returns
the first candidate's text, and in every failure case (raise, no candidates,
absent content) it returns one of the human-readable failure strings. -/
theorem c4_generation_never_raises (msg : String) (q : QueryResult) :
    (∀ c rest, q = QueryResult.ok (some c :: rest) →
        (send_to_databricks_endpoint msg q).2 = c)
    ∧ (queryIsFailure q = true →
        (send_to_databricks_endpoint msg q).2 = noResponseReply
        ∨ ∃ e, (send_to_databricks_endpoint msg q).2 = errorReplyFront ++ e) := by
  cases q with
  | err m =>
      exact ⟨fun c rest h => (by cases h), fun _ => Or.inr ⟨m, rfl⟩⟩
  | ok contents =>
      cases contents with
      | nil =>
          exact ⟨fun c rest h => (by simp at h), fun _ => Or.inl rfl⟩
      | cons c0 rest0 =>
        cases c0 with
        | none =>
            exact ⟨fun c rest h => (by simp at h),
                   fun _ => Or.inr ⟨noneContentError, rfl⟩⟩
        | some c1 =>
            refine ⟨fun c rest h => ?_, fun hf => by simp [queryIsFailure] at hf⟩
            simp only [QueryResult.ok.injEq, List.cons.injEq,
              Option.some.injEq] at h
            exact h.1

/-- Witness for C4: a successful query with one candidate returns its text. -/
theorem c4_witness :
    (send_to_databricks_endpoint "ping" (QueryResult.ok [some "pong"])).2 = "pong" :=
  (c4_generation_never_raises "ping" (QueryResult.ok [some "pong"])).1 "pong" [] rfl

/-- Claim C5: an exception raised while handling one event is caught at the
per-event boundary: `process_update` returns (it never raises into the batch
loop), appends the best-effort generic apology to the originating chat, and
the batch loop goes on to process the remaining events unchanged. -/
theorem c5_event_errors_contained (cursor : Nat) (u : Update) (m : Message)
    (o : EventOracle) (rest : List (Update × EventOracle))
    (hm : u.message = some m)
    (hraised : (process_update_body cursor u o).2 = true) :
    process_update cursor u o
      = (process_update_body cursor u o).1
          ++ [Effect.sendMessage m.chat_id processingErrorReply]
    ∧ process_batch cursor ((u, o) :: rest)
        = process_update cursor u o ++ process_batch cursor rest := by
  constructor
  · simp only [process_update, hraised, hm, if_true]
  · rfl

/-- Witness for C5: the send raises on a free-text event; the apology is
appended and a following event is still processed. -/
theorem c5_witness :
    process_update 0 uHello oRaise
      = (process_update_body 0 uHello oRaise).1
          ++ [Effect.sendMessage mHello.chat_id processingErrorReply]
    ∧ process_batch 0 ((uHello, oRaise) :: [(uStartUpd, oDeliv)])
        = process_update 0 uHello oRaise
            ++ process_batch 0 [(uStartUpd, oDeliv)] :=
  c5_event_errors_contained 0 uHello mHello oRaise [(uStartUpd, oDeliv)]
    rfl (by decide)

/-- Counterexample to C6 as stated: a transport error during fetch does NOT
escape to the top-level loop — `get_updates` catches it internally and
returns the empty batch — and the iteration then sleeps the normal poll
interval (2 s), not the 5-second cooldown. -/
theorem c6_counterexample :
    get_updates ⟨7⟩ errRespond = (⟨7⟩, [])
    ∧ run_step ⟨7⟩ (IterInput.quiet errRespond noOracle)
        = (⟨7⟩, [], StepKind.normal POLL_INTERVAL)
    ∧ POLL_INTERVAL ≠ COOLDOWN_SECONDS :=
  ⟨rfl, rfl, by decide⟩

/-- Claim C6 (amended): every fetch error is caught inside `get_updates`
itself, which leaves the cursor untouched and returns the empty batch; the
iteration produces no outbound effect (nothing is surfaced to any
conversation), does not terminate the loop, and is followed by the normal
poll-interval sleep rather than the 5-second cooldown. -/
theorem c6_amended_fetch_error_contained (s : PollerState) (msg : String)
    (respond : FetchRequest → FetchResult) (os : Nat → EventOracle)
    (h : respond (getUpdatesRequest s) = FetchResult.err msg) :
    get_updates s respond = (s, [])
    ∧ run_step s (IterInput.quiet respond os)
        = (s, [], StepKind.normal POLL_INTERVAL) := by
  have hg : get_updates s respond = (s, []) := by
    unfold get_updates
    rw [h]
  refine ⟨hg, ?_⟩
  simp only [run_step, run_iteration, hg]
  rfl

/-- Witness for the amended C6 at a concrete erroring transport. -/
theorem c6_witness :
    get_updates ⟨9⟩ timeoutRespond = (⟨9⟩, [])
    ∧ run_step ⟨9⟩ (IterInput.quiet timeoutRespond noOracle)
        = (⟨9⟩, [], StepKind.normal POLL_INTERVAL) :=
  c6_amended_fetch_error_contained ⟨9⟩ "timeout" timeoutRespond noOracle rfl

/-- Counterexample to C7 as stated: `get_updates` sets the cursor to the
batch maximum unconditionally, so a batch whose ids fall below the cursor
(possible for an arbitrary transport reply) rolls the cursor back: from 100
down to 50. -/
theorem c7_counterexample :
    (get_updates ⟨100⟩ badRespond).1.last_update_id
      < (⟨100⟩ : PollerState).last_update_id := by
  decide

lemma get_updates_mono (s : PollerState) (respond : FetchRequest → FetchResult)
    (h : honest respond) :
    s.last_update_id ≤ (get_updates s respond).1.last_update_id := by
  unfold get_updates
  cases hr : respond (getUpdatesRequest s) with
  | err m => exact le_refl _
  | notOk d => exact le_refl _
  | ok us =>
    cases us with
    | nil => exact le_refl _
    | cons u vs =>
      have h1 : (getUpdatesRequest s).offset ≤ u.update_id :=
        h _ _ hr u (List.mem_cons_self u vs)
      have h2 : u.update_id ≤ batchMax (u :: vs) :=
        le_batchMax _ u (List.mem_cons_self u vs)
      have h3 : s.last_update_id + 1 ≤ u.update_id := h1
      simp only [List.isEmpty_cons, Bool.false_eq_true, if_false]
      omega

/-- Claim C7 (amended): the cursor is monotonically non-decreasing over every
run whose transport honours the requested offset (returns only events with
id at least `Cursor + 1`); without that contract the code sets the cursor to
the batch maximum unconditionally and can roll it back. -/
theorem c7_amended_cursor_monotone (s : PollerState) (script : List IterInput)
    (h : honestScript script) :
    s.last_update_id ≤ (run_loop s script).state.last_update_id := by
  revert h
  induction script generalizing s with
  | nil =>
      intro h
      exact le_refl _
  | cons it its ih =>
    intro h
    cases it with
    | quiet respond os =>
        obtain ⟨h1, h2⟩ := h
        simp only [run_loop, run_step, run_iteration]
        exact le_trans (get_updates_mono s respond h1) (ih _ h2)
    | interrupt c =>
        cases c with
        | kbInterrupt => exact le_refl _
        | cancelled => exact le_refl _

/-- Witness for the amended C7: one iteration against a (vacuously honest)
erroring transport. -/
theorem c7_witness :
    (⟨4⟩ : PollerState).last_update_id
      ≤ (run_loop ⟨4⟩ [IterInput.quiet timeoutRespond noOracle]).state.last_update_id :=
  c7_amended_cursor_monotone ⟨4⟩ [IterInput.quiet timeoutRespond noOracle]
    ⟨fun req us h => (by simp [timeoutRespond] at h), trivial⟩

/-- Claim C8: a batch with strictly increasing event ids is handled strictly
sequentially in list order, so the effect trace of the whole batch is the
concatenation of the per-event traces in the same relative order. -/
theorem c8_replies_preserve_order (cursor : Nat)
    (xs ys : List (Update × EventOracle))
    (hinc : strictlyIncreasingIds ((xs ++ ys).map Prod.fst) = true) :
    process_batch cursor (xs ++ ys)
      = process_batch cursor xs ++ process_batch cursor ys :=
  process_batch_append cursor xs ys

/-- Witness for C8 on the two-event batch with ids 5 and 6. -/
theorem c8_witness :
    process_batch 0 ([(uStartUpd, oDeliv)] ++ [(uHello, oDeliv)])
      = process_batch 0 [(uStartUpd, oDeliv)]
          ++ process_batch 0 [(uHello, oDeliv)] :=
  c8_replies_preserve_order 0 [(uStartUpd, oDeliv)] [(uHello, oDeliv)] (by decide)

/-- Counterexample to C9 as stated: an external interrupt delivered as a
cancellation (`asyncio.CancelledError`, a `BaseException` caught by neither
`except KeyboardInterrupt` nor `except Exception`) escapes `run`, and since
`await self.client.aclose()` sits after the loop with no `finally`, the
client-release step does not run on that exit path. -/
theorem c9_counterexample :
    (run_loop ⟨0⟩ [IterInput.interrupt ExcClass.cancelled]).clientReleased = false
    ∧ (run_loop ⟨0⟩ [IterInput.interrupt ExcClass.cancelled]).exit = RunExit.raised :=
  ⟨rfl, rfl⟩

/-- Claim C9 (amended): the client-release step runs exactly on the loop exit
through the caught-`KeyboardInterrupt` `break`; on an exceptional exit (such
as a cancellation-style interrupt) `run` terminates without releasing the
client. -/
theorem c9_amended_release_on_break_only (s : PollerState)
    (script : List IterInput) :
    (run_loop s script).clientReleased = true
      ↔ (run_loop s script).exit = RunExit.cleanStop := by
  induction script generalizing s with
  | nil => simp [run_loop]
  | cons it its ih =>
    cases it with
    | quiet respond os =>
        simp only [run_loop, run_step]
        exact ih _
    | interrupt c =>
        cases c with
        | kbInterrupt => simp [run_loop, run_step]
        | cancelled => simp [run_loop, run_step]

/-- Claim C10: command classification is by string prefix, tested in the
order `/start`, `/help`, `/status`: any text merely beginning with a command
string gets that command's canned reply exactly once and never invokes the
serving endpoint. -/
theorem c10_classification_by_string_front (cursor : Nat) (u : Update)
    (m : Message) (text : String) (o : EventOracle)
    (hm : u.message = some m) (ht : m.text = some text) :
    (startsWithText text "/start" = true →
        countSends (process_update cursor u o) m.chat_id welcomeReply = 1
        ∧ queryCount (process_update cursor u o) = 0)
    ∧ (startsWithText text "/start" = false →
        startsWithText text "/help" = true →
        countSends (process_update cursor u o) m.chat_id helpReply = 1
        ∧ queryCount (process_update cursor u o) = 0)
    ∧ (startsWithText text "/start" = false →
        startsWithText text "/help" = false →
        startsWithText text "/status" = true →
        countSends (process_update cursor u o) m.chat_id (statusReply cursor) = 1
        ∧ queryCount (process_update cursor u o) = 0) := by
  refine ⟨fun h1 => ?_, fun h1 h2 => ?_, fun h1 h2 h3 => ?_⟩
  · exact canned_counts cursor u m text o welcomeReply hm ht
      (by unfold cannedReplyFor; simp [h1])
  · exact canned_counts cursor u m text o helpReply hm ht
      (by unfold cannedReplyFor; simp [h1, h2])
  · exact canned_counts cursor u m text o (statusReply cursor) hm ht
      (by unfold cannedReplyFor; simp [h1, h2, h3])

/-- Witness for C10 at the concrete texts `/starting` and `/status_extra`. -/
theorem c10_witness :
    (countSends (process_update 0 uStarting oDeliv) mStarting.chat_id welcomeReply = 1
      ∧ queryCount (process_update 0 uStarting oDeliv) = 0)
    ∧ (countSends (process_update 0 uStatusExtra oDeliv) mStatusExtra.chat_id
          (statusReply 0) = 1
      ∧ queryCount (process_update 0 uStatusExtra oDeliv) = 0) :=
  ⟨(c10_classification_by_string_front 0 uStarting mStarting "/starting" oDeliv
      rfl rfl).1 (by decide),
   (c10_classification_by_string_front 0 uStatusExtra mStatusExtra "/status_extra"
      oDeliv rfl rfl).2.2 (by decide) (by decide) (by decide)⟩
